import Mathlib

/-!
Shallow embedding of the TridentEnergy ContractGuard front-end
(src/components/Layout.tsx with the constants module, src/components/Dashboard.tsx,
src/services/geminiService.ts) together with theorems settling the frozen claims.

JavaScript numbers holding monetary amounts and millisecond timestamps are
modelled as Int (all values the code manipulates for these claims are integral).
Date.now() and Math.random() are modelled as explicit parameters.
-/

namespace ContractGuard

/-- Entity enumeration from types.ts (file not in src/).  The string values are
pinned by Dashboard.tsx, which indexes FLAG_URLS by the raw enum value and
compares the selected-entity strings against the enum members. -/
inductive Entity where
  | london
  | brazil
  | congo
  | equatorialGuinea
deriving DecidableEq, Repr

/-- Raw string value of an Entity, as pinned by the FLAG_URLS keys and the
entity filter comparisons in Dashboard.tsx. -/
def entityStr : Entity → String
  | .london => "London"
  | .brazil => "Brazil"
  | .congo => "Congo"
  | .equatorialGuinea => "Equatorial Guinea"

/-- ContractStatus enumeration from types.ts (file not in src/).  The six
members are named in the spec (section 4.2). -/
inductive ContractStatus where
  | draft
  | submitted
  | pendingCEO
  | changesRequested
  | approved
  | rejected
deriving DecidableEq, Repr

/-- Modelled from the spec: the raw string value of each ContractStatus member
(types.ts is not in src/; the spec names the states Draft, Submitted,
PendingCEO, ChangesRequested, Approved, Rejected).  Only injectivity and
distinctness from the sentinel strings ALL and REVIEW matter to the claims. -/
def statusStr : ContractStatus → String
  | .draft => "Draft"
  | .submitted => "Submitted"
  | .pendingCEO => "PendingCEO"
  | .changesRequested => "ChangesRequested"
  | .approved => "Approved"
  | .rejected => "Rejected"

/-- RiskCategory enumeration from types.ts (members pinned by their use in the
constants module). -/
inductive RiskCategory where
  | financial
  | legal
  | operational
  | thirdParty
  | environmental
deriving DecidableEq, Repr

/-- UserRole enumeration from types.ts (members pinned by MOCK_USERS). -/
inductive UserRole where
  | scm
  | corporateCFO
  | corporateLegal
  | corporateFunction
  | ceo
  | admin
  | engineering
  | hse
deriving DecidableEq, Repr

structure RiskTrigger where
  id : String
  category : RiskCategory
  description : String
  triggered : Bool
deriving DecidableEq, Repr

structure AuditEntry where
  id : String
  timestamp : Int
  userId : String
  userName : String
  action : String
  details : Option String := none
deriving DecidableEq, Repr

structure ContractComment where
  id : String
  userId : String
  userName : String
  role : UserRole
  text : String
  timestamp : Int
deriving DecidableEq, Repr

structure Review where
  id : String
  reviewerId : String
  reviewerName : String
  role : UserRole
  decision : String
  comment : String
  timestamp : Int
deriving DecidableEq, Repr

structure AdHocReviewer where
  userId : String
deriving DecidableEq, Repr

structure DocumentMeta where
  id : String
  name : String
  mimeType : String
  size : Int
  uploadDate : Int
deriving DecidableEq, Repr

/-- The corporateApprovals map: approval-role keys to optional booleans
(a missing key is none). -/
structure CorporateApprovals where
  cfo : Option Bool := none
  legal : Option Bool := none
  functionHead : Option Bool := none
deriving DecidableEq, Repr

/-- The central Contract aggregate (ContractData in types.ts), with the fields
the four source files read or write.  submissionDate is optional because
Dashboard.tsx guards it with a falsy-or (a.submissionDate || 0). -/
structure ContractData where
  id : String
  entity : Entity
  department : String
  contractorName : String
  contractType : String
  amount : Int
  currency : String
  startDate : String
  endDate : String
  hasExtensionOptions : Bool
  scopeOfWork : String
  backgroundNeed : String
  tenderProcessSummary : String
  specialConsiderations : String
  technicalEvalSummary : String
  commercialEvalSummary : String
  isStandardTerms : Bool
  liabilityCapPercent : Int
  isSubcontracting : Bool
  subcontractingPercent : Int
  riskDescription : String
  mitigationMeasures : String
  priceStructure : String
  status : ContractStatus
  submitterId : String
  submissionDate : Option Int
  detectedTriggers : List RiskTrigger
  isHighRisk : Bool
  auditTrail : List AuditEntry
  comments : List ContractComment
  hasUnreadComments : Bool
  reviews : List Review
  adHocReviewers : List AdHocReviewer
  documents : List DocumentMeta
  aiRiskAnalysis : Option String
  corporateApprovals : CorporateApprovals
  ddqNumber : String
  ddqDate : String
  ddqValidityDate : String
  otherChecksDetails : String
deriving DecidableEq, Repr

/-- The t1 object pushed for an OPEX contract above 1M (constants module line 181). -/
def opexTrigger : RiskTrigger :=
  { id := "t1", category := .financial, description := "OPEX > USD 1M", triggered := true }

/-- The t2 object pushed for a CAPEX contract above 5M (constants module line 185). -/
def capexTrigger : RiskTrigger :=
  { id := "t2", category := .financial, description := "CAPEX > USD 5M", triggered := true }

/-- The two pushes in createMockContract (constants module, lines 177-186):
the detected-trigger list as a function of the already-determined contract
type string and the amount.  The sequential pushes become list append in
source order (t1 before t2). -/
def detectTriggers (contractType : String) (amount : Int) : List RiskTrigger :=
  (if contractType = "OPEX" ∧ amount > 1000000 then [opexTrigger] else []) ++
  (if contractType = "CAPEX" ∧ amount > 5000000 then [capexTrigger] else [])

/-- createMockContract from the constants module (lines 173-233).  The call
site computes submissionDate as Date.now() - Math.random() * 1000000000;
that nondeterministic value is passed in as the submissionDate parameter. -/
def createMockContract (id : String) (entity : Entity) (status : ContractStatus)
    (amount : Int) (title : String) (submissionDate : Int) : ContractData :=
  let contractType := if amount > 5000000 then "CAPEX" else "OPEX"
  let detectedTriggers := detectTriggers contractType amount
  let isHighRisk := decide (detectedTriggers.length > 0)
  { id := id
    entity := entity
    department := "Operations"
    contractorName := title
    contractType := contractType
    amount := amount
    currency := "USD"
    startDate := "2024-01-01"
    endDate := "2025-01-01"
    hasExtensionOptions := false
    scopeOfWork := "Provision of " ++ title.toLower ++ " services."
    backgroundNeed := "Operational requirement."
    tenderProcessSummary := "Competitive tender."
    specialConsiderations := "None"
    technicalEvalSummary := "Technically qualified."
    commercialEvalSummary := "Commercially aligned."
    isStandardTerms := true
    liabilityCapPercent := 100
    isSubcontracting := false
    subcontractingPercent := 0
    riskDescription := "Standard operational risks."
    mitigationMeasures := "Standard mitigation."
    priceStructure := "Fixed"
    status := status
    submitterId := "u1"
    submissionDate := some submissionDate
    detectedTriggers := detectedTriggers
    isHighRisk := isHighRisk
    auditTrail := []
    comments := []
    hasUnreadComments := false
    reviews := []
    adHocReviewers := []
    documents := []
    aiRiskAnalysis := none
    corporateApprovals := {}
    ddqNumber := "REEU3P-12345"
    ddqDate := "2023-06-15"
    ddqValidityDate := "2025-06-15"
    otherChecksDetails := "Financial health check passed. QHSE audit score 92%." }

/-- First hand-written contract of MOCK_CONTRACTS (constants module).
Timestamps are offsets from Date.now(), passed in as now. -/
def mockContract1 (now : Int) : ContractData :=
  { id := "CNT-2023-001"
    entity := .brazil
    department := "Drilling"
    contractorName := "DeepSea Solutions"
    contractType := "CAPEX"
    amount := 12000000
    currency := "USD"
    startDate := "2023-11-01"
    endDate := "2026-11-01"
    hasExtensionOptions := true
    scopeOfWork := "Provision of deepwater drilling rig support services."
    backgroundNeed := "Critical for Q4 campaign."
    tenderProcessSummary := "Competitive tender, 4 bidders."
    specialConsiderations := "None"
    technicalEvalSummary := "Scored 85/100"
    commercialEvalSummary := "Lowest compliant bidder"
    isStandardTerms := true
    liabilityCapPercent := 100
    isSubcontracting := false
    subcontractingPercent := 0
    riskDescription := "Operational delays due to weather."
    mitigationMeasures := "Buffer built into schedule."
    priceStructure := "Fixed"
    status := .pendingCEO
    submitterId := "u1"
    submissionDate := some (now - 172800000)
    detectedTriggers := [{ id := "t2", category := .financial, description := "CAPEX > USD 5M", triggered := true }]
    isHighRisk := true
    auditTrail :=
      [ { id := "a1", timestamp := now - 172800000, userId := "u1", userName := "Sarah SCM", action := "Submitted Contract" },
        { id := "a2", timestamp := now - 86400000, userId := "u2", userName := "Charles CFO", action := "Approved", details := some "Budget approved." },
        { id := "a3", timestamp := now - 85000000, userId := "u3", userName := "Larry Legal", action := "Approved", details := some "Legal terms standard." } ]
    comments :=
      [ { id := "c1", userId := "u2", userName := "Charles CFO", role := .corporateCFO, text := "Please clarify the payment terms on page 12.", timestamp := now - 100000000 },
        { id := "c2", userId := "u1", userName := "Sarah SCM", role := .scm, text := "Updated to standard 30 days net.", timestamp := now - 90000000 } ]
    hasUnreadComments := true
    reviews :=
      [ { id := "r1", reviewerId := "u2", reviewerName := "Charles CFO", role := .corporateCFO, decision := "Approved", comment := "Budget approved.", timestamp := now - 86400000 },
        { id := "r2", reviewerId := "u3", reviewerName := "Larry Legal", role := .corporateLegal, decision := "Approved", comment := "Legal terms standard.", timestamp := now - 85000000 } ]
    adHocReviewers := []
    documents := [{ id := "d1", name := "Scope_Of_Work_vFinal.pdf", mimeType := "application/pdf", size := 1024000, uploadDate := now - 172800000 }]
    aiRiskAnalysis := none
    corporateApprovals := { cfo := some true, legal := some true, functionHead := some true }
    ddqNumber := "REEU3P-98765"
    ddqDate := "2023-01-10"
    ddqValidityDate := "2025-01-10"
    otherChecksDetails := "Standard technical qualification passed." }

/-- Second hand-written contract of MOCK_CONTRACTS (constants module). -/
def mockContract2 (now : Int) : ContractData :=
  { id := "CNT-2023-002"
    entity := .congo
    department := "Logistics"
    contractorName := "Local Transport Co"
    contractType := "OPEX"
    amount := 800000
    currency := "USD"
    startDate := "2024-01-01"
    endDate := "2024-12-31"
    hasExtensionOptions := false
    scopeOfWork := "Logistics support."
    backgroundNeed := "Routine transport."
    tenderProcessSummary := "Sole source justification provided."
    specialConsiderations := "None"
    technicalEvalSummary := "Pass"
    commercialEvalSummary := "Aligned with market rates"
    isStandardTerms := true
    liabilityCapPercent := 100
    isSubcontracting := true
    subcontractingPercent := 10
    riskDescription := "Low risk."
    mitigationMeasures := "Standard insurance."
    priceStructure := "Fixed"
    status := .submitted
    submitterId := "u1"
    submissionDate := some (now - 3600000)
    detectedTriggers := []
    isHighRisk := false
    auditTrail := [{ id := "a4", timestamp := now - 3600000, userId := "u1", userName := "Sarah SCM", action := "Submitted Contract" }]
    comments := []
    hasUnreadComments := false
    reviews := []
    adHocReviewers := []
    documents := []
    aiRiskAnalysis := none
    corporateApprovals := {}
    ddqNumber := "REEU3P-55555"
    ddqDate := "2023-08-20"
    ddqValidityDate := "2025-08-20"
    otherChecksDetails := "Local compliance verification complete." }

/-- MOCK_CONTRACTS (constants module, lines 235-365).  now stands for
Date.now(); rnd k stands for the Math.random() * 1000000000 offset of the
k-th createMockContract call. -/
def MOCK_CONTRACTS (now : Int) (rnd : Nat → Int) : List ContractData :=
  [ mockContract1 now,
    mockContract2 now,
    createMockContract "CNT-2023-003" .brazil .approved 15000000 "FPSO Maintenance" (now - rnd 0),
    createMockContract "CNT-2023-004" .brazil .submitted 8000000 "Support Vessel Charter" (now - rnd 1),
    createMockContract "CNT-2023-005" .brazil .rejected 2000000 "Offshore Catering" (now - rnd 2),
    createMockContract "CNT-2023-006" .brazil .draft 500000 "Waste Management" (now - rnd 3),
    createMockContract "CNT-2023-007" .brazil .pendingCEO 45000000 "Subsea Tree Installation" (now - rnd 4),
    createMockContract "CNT-2023-008" .congo .approved 1200000 "Road Maintenance" (now - rnd 5),
    createMockContract "CNT-2023-009" .congo .pendingCEO 3000000 "Site Security Services" (now - rnd 6),
    createMockContract "CNT-2023-010" .congo .changesRequested 5000000 "Base Camp Construction" (now - rnd 7),
    createMockContract "CNT-2023-011" .congo .submitted 800000 "Diesel Supply" (now - rnd 8),
    createMockContract "CNT-2023-012" .congo .approved 600000 "Medical Services" (now - rnd 9),
    createMockContract "CNT-2023-013" .equatorialGuinea .pendingCEO 12000000 "Gas Turbine Overhaul" (now - rnd 10),
    createMockContract "CNT-2023-014" .equatorialGuinea .approved 1500000 "Scaffolding Services" (now - rnd 11),
    createMockContract "CNT-2023-015" .equatorialGuinea .submitted 900000 "Paint & Blast" (now - rnd 12),
    createMockContract "CNT-2023-016" .equatorialGuinea .draft 300000 "Valve Supply" (now - rnd 13),
    createMockContract "CNT-2023-017" .equatorialGuinea .rejected 2000000 "Crane Rental" (now - rnd 14),
    createMockContract "CNT-2023-018" .london .pendingCEO 5000000 "ERP License Renewal" (now - rnd 15),
    createMockContract "CNT-2023-019" .london .approved 1000000 "Global Audit Services" (now - rnd 16),
    createMockContract "CNT-2023-020" .london .submitted 2000000 "Legal Counsel Retainer" (now - rnd 17),
    createMockContract "CNT-2023-021" .london .pendingCEO 8000000 "New Office Lease" (now - rnd 18),
    createMockContract "CNT-2023-022" .london .changesRequested 1500000 "IT Infrastructure Support" (now - rnd 19) ]

/-!
geminiService.ts.  The network call ai.models.generateContent is abstracted
as an AIOutcome parameter: success carries the response.text value (none when
the field is undefined), failure stands for any thrown error.  The API key
comes from the environment (process.env.API_KEY || two quotes), so a missing
credential is the empty string.
-/

/-- Outcome of the external generateContent call. -/
inductive AIOutcome where
  | success (text : Option String)
  | failure
deriving DecidableEq, Repr

/-- The JavaScript falsy-or on an optional string against a default:
undefined and the empty string both fall through to the default. -/
def jsOrString (t : Option String) (d : String) : String :=
  match t with
  | some s => if s = "" then d else s
  | none => d

/-- analyzeContractRisks (geminiService.ts lines 14-63).  The prompt built
from the contract fields is consumed only by the external model, whose reply
is abstracted by outcome. -/
def analyzeContractRisks (apiKey : String) (_contract : ContractData)
    (outcome : AIOutcome) : String :=
  if apiKey = "" then
    "API Key not configured. Unable to perform AI analysis."
  else
    match outcome with
    | .success t => jsOrString t "No analysis generated."
    | .failure => "Error generating AI analysis. Please review manually."

/-- refineContractText (geminiService.ts lines 65-97). -/
def refineContractText (apiKey : String) (text : String) (outcome : AIOutcome) : String :=
  if apiKey = "" ∨ text = "" ∨ text.length < 5 then text
  else
    match outcome with
    | .success t => jsOrString t text
    | .failure => text

/-!
Dashboard.tsx: filter, sort, pagination-reset and metrics derivation.
-/

/-- List-of-characters version of the JavaScript startsWith check. -/
def charsLead : List Char → List Char → Bool
  | [], _ => true
  | _ :: _, [] => false
  | a :: as, b :: bs => a == b && charsLead as bs

/-- List-of-characters version of the JavaScript String.includes check. -/
def charsContain (needle : List Char) : List Char → Bool
  | [] => needle.isEmpty
  | b :: bs => charsLead needle (b :: bs) || charsContain needle bs

/-- haystack.includes(needle) from JavaScript. -/
def jsIncludes (haystack needle : String) : Bool :=
  charsContain needle.toList haystack.toList

/-- The nested ternary used by both the table filter and the KPI base in
Dashboard.tsx (lines 40-45 and 96-101): which entities a non-ALL selected
entity string keeps.  Any unmatched string falls through to the
Equatorial Guinea branch, exactly as the source ternary does. -/
def entitySelMatches (selectedEntity : String) (e : Entity) : Bool :=
  if selectedEntity = "London" then decide (e = .london)
  else if selectedEntity = "Brazil" then decide (e = .brazil)
  else if selectedEntity = "Congo" then decide (e = .congo)
  else decide (e = .equatorialGuinea)

inductive SortOrder where
  | asc
  | desc
deriving DecidableEq, Repr

/-- The Dashboard component state relevant to filtering, sorting and
pagination (the useState hooks of Dashboard.tsx lines 22-32). -/
structure DashState where
  selectedEntity : String
  selectedStatus : String
  isHighRiskFilter : Bool
  searchTerm : String
  sortOrder : SortOrder
  currentPage : Nat
  itemsPerPage : Nat
deriving DecidableEq, Repr

/-- The initial hook values of Dashboard.tsx. -/
def initialDashState : DashState :=
  { selectedEntity := "ALL", selectedStatus := "ALL", isHighRiskFilter := false,
    searchTerm := "", sortOrder := .desc, currentPage := 1, itemsPerPage := 25 }

/-- The search predicate of Dashboard.tsx lines 61-68 for one contract. -/
def searchMatches (searchTerm : String) (c : ContractData) : Bool :=
  let lower := searchTerm.toLower
  jsIncludes c.contractorName.toLower lower ||
  jsIncludes c.id.toLower lower ||
  jsIncludes c.scopeOfWork.toLower lower

/-- The filter stages of filteredContracts (Dashboard.tsx lines 35-68),
before the sort: entity, then status, then high-risk, then search. -/
def filterContracts (s : DashState) (contracts : List ContractData) : List ContractData :=
  let d1 := if s.selectedEntity ≠ "ALL" then
      contracts.filter (fun c => entitySelMatches s.selectedEntity c.entity)
    else contracts
  let d2 := if s.selectedStatus = "REVIEW" then
      d1.filter (fun c => decide (c.status = .submitted) || decide (c.status = .pendingCEO))
    else if s.selectedStatus ≠ "ALL" then
      d1.filter (fun c => decide (statusStr c.status = s.selectedStatus))
    else d1
  let d3 := if s.isHighRiskFilter then d2.filter (fun c => c.isHighRisk) else d2
  if s.searchTerm ≠ "" then d3.filter (searchMatches s.searchTerm) else d3

/-- The sort key: a.submissionDate || 0 from the comparator. -/
def sortKey (c : ContractData) : Int :=
  c.submissionDate.getD 0

/-- The comparator of Dashboard.tsx lines 71-75 as a total boolean order:
sortLE ord a b holds when the comparator returns a non-positive number on
(a, b), i.e. when a may stay before b. -/
def sortLE (ord : SortOrder) (a b : ContractData) : Bool :=
  match ord with
  | .asc => decide (sortKey a ≤ sortKey b)
  | .desc => decide (sortKey b ≤ sortKey a)

/-- The stable Array.prototype.sort call, modelled with the stable mergeSort. -/
def sortByDate (ord : SortOrder) (l : List ContractData) : List ContractData :=
  l.mergeSort (sortLE ord)

/-- filteredContracts of Dashboard.tsx lines 35-78: filter stages then sort. -/
def filteredContracts (s : DashState) (contracts : List ContractData) : List ContractData :=
  sortByDate s.sortOrder (filterContracts s contracts)

/-- User-driven state updates of the Dashboard component: the setState
callbacks wired to the filter bar, the status dropdown, the search box, the
sortable date header (toggleSortOrder, lines 169-171), the rows-per-page
select and the pager buttons. -/
inductive DashEvent where
  | setEntity (v : String)
  | setStatus (v : String)
  | setHighRisk (v : Bool)
  | setSearch (v : String)
  | toggleSort
  | setItemsPerPage (v : Nat)
  | setPage (v : Nat)
deriving DecidableEq, Repr

def applyEvent : DashEvent → DashState → DashState
  | .setEntity v, s => { s with selectedEntity := v }
  | .setStatus v, s => { s with selectedStatus := v }
  | .setHighRisk v, s => { s with isHighRiskFilter := v }
  | .setSearch v, s => { s with searchTerm := v }
  | .toggleSort, s => { s with sortOrder := if s.sortOrder = .asc then .desc else .asc }
  | .setItemsPerPage v, s => { s with itemsPerPage := v }
  | .setPage v, s => { s with currentPage := v }

/-- The dependency array of the pagination-reset useEffect
(Dashboard.tsx lines 81-83): selectedEntity, selectedStatus, searchTerm,
itemsPerPage, isHighRiskFilter.  sortOrder and currentPage are absent. -/
def effectDeps (s : DashState) : String × String × String × Nat × Bool :=
  (s.selectedEntity, s.selectedStatus, s.searchTerm, s.itemsPerPage, s.isHighRiskFilter)

/-- One user interaction followed by the re-render effects: the reset effect
fires exactly when one of its dependencies changed, setting currentPage to 1. -/
def step (s : DashState) (e : DashEvent) : DashState :=
  let t := applyEvent e s
  if effectDeps t = effectDeps s then t else { t with currentPage := 1 }

/-- kpiBaseContracts (Dashboard.tsx lines 94-102): the entity-filtered but
otherwise unfiltered base for the KPI metrics. -/
def kpiBaseContracts (selectedEntity : String) (contracts : List ContractData) : List ContractData :=
  if selectedEntity = "ALL" then contracts
  else contracts.filter (fun c => entitySelMatches selectedEntity c.entity)

structure StatusDatum where
  name : String
  value : Nat
deriving DecidableEq, Repr

structure SpendDatum where
  name : String
  value : Int
deriving DecidableEq, Repr

/-- statusData (Dashboard.tsx lines 110-115): four fixed buckets, keeping
only those with a positive count.  Draft and ChangesRequested have no
bucket in the source. -/
def statusDataOf (base : List ContractData) : List StatusDatum :=
  ([ { name := statusStr .submitted, value := (base.filter fun c => decide (c.status = .submitted)).length },
     { name := statusStr .pendingCEO, value := (base.filter fun c => decide (c.status = .pendingCEO)).length },
     { name := statusStr .approved, value := (base.filter fun c => decide (c.status = .approved)).length },
     { name := statusStr .rejected, value := (base.filter fun c => decide (c.status = .rejected)).length }
   ] : List StatusDatum).filter (fun d => decide (d.value > 0))

/-- spendData (Dashboard.tsx lines 117-122): per-entity value sums. -/
def spendDataOf (base : List ContractData) : List SpendDatum :=
  [ { name := "London", value := (base.filter fun c => decide (c.entity = .london)).foldl (fun acc c => acc + c.amount) 0 },
    { name := "Brazil", value := (base.filter fun c => decide (c.entity = .brazil)).foldl (fun acc c => acc + c.amount) 0 },
    { name := "Congo", value := (base.filter fun c => decide (c.entity = .congo)).foldl (fun acc c => acc + c.amount) 0 },
    { name := "Eq. Guinea", value := (base.filter fun c => decide (c.entity = .equatorialGuinea)).foldl (fun acc c => acc + c.amount) 0 } ]

structure Metrics where
  pending : Nat
  totalValue : Int
  highRisk : Nat
  avgDays : Rat
  statusData : List StatusDatum
  spendData : List SpendDatum
deriving DecidableEq, Repr

/-- metrics (Dashboard.tsx lines 104-125), computed over the KPI base.
The literal 2.5 of avgDays is represented exactly as the rational 5/2. -/
def metrics (selectedEntity : String) (contracts : List ContractData) : Metrics :=
  let base := kpiBaseContracts selectedEntity contracts
  { pending := (base.filter fun c => decide (c.status = .submitted) || decide (c.status = .pendingCEO)).length
    totalValue := base.foldl (fun acc c => acc + c.amount) 0
    highRisk := (base.filter fun c => c.isHighRisk).length
    avgDays := if base.length > 0 then (5 : Rat) / 2 else 0
    statusData := statusDataOf base
    spendData := spendDataOf base }

/-- The metrics as the component derives them from its full state: only
selectedEntity is read (the useMemo dependency lists of lines 102 and 125). -/
def dashMetrics (s : DashState) (contracts : List ContractData) : Metrics :=
  metrics s.selectedEntity contracts

/-!
Helper lemmas shared by the claim theorems.
-/

/-- detectTriggers on the CAPEX type string, evaluated. -/
theorem detectTriggers_capex (amount : Int) :
    detectTriggers "CAPEX" amount = if amount > 5000000 then [capexTrigger] else [] := by
  simp [detectTriggers]

/-- detectTriggers on the OPEX type string, evaluated. -/
theorem detectTriggers_opex (amount : Int) :
    detectTriggers "OPEX" amount = if amount > 1000000 then [opexTrigger] else [] := by
  simp [detectTriggers]

/-- The high-risk flag of a mock contract equals the non-emptiness of its
detected-trigger list. -/
theorem createMock_highRisk_iff (id : String) (entity : Entity) (status : ContractStatus)
    (amount : Int) (title : String) (subDate : Int) :
    (createMockContract id entity status amount title subDate).isHighRisk = true ↔
      (createMockContract id entity status amount title subDate).detectedTriggers.length > 0 := by
  simp [createMockContract]

/-- The reduce-with-add accumulator as a mapped sum. -/
theorem foldl_add_amount (l : List ContractData) (a : Int) :
    l.foldl (fun acc c => acc + c.amount) a = a + (l.map (·.amount)).sum := by
  induction l generalizing a with
  | nil => simp
  | cons c t ih => simp [ih (a + c.amount)]; ring

/-- Every contract belongs to exactly one of the four entities, so the four
per-entity amount sums partition the total. -/
theorem spend_partition (l : List ContractData) :
    ((l.filter fun c => decide (c.entity = .london)).map (·.amount)).sum +
    ((l.filter fun c => decide (c.entity = .brazil)).map (·.amount)).sum +
    ((l.filter fun c => decide (c.entity = .congo)).map (·.amount)).sum +
    ((l.filter fun c => decide (c.entity = .equatorialGuinea)).map (·.amount)).sum =
    (l.map (·.amount)).sum := by
  induction l with
  | nil => simp
  | cons c t ih => cases hc : c.entity <;> simp [List.filter_cons, hc] <;> omega

/-- For the four legal entity strings, the source ternary agrees with
equality of the entity raw string value. -/
theorem entitySelMatches_eq (sel : String)
    (hsel : sel = "London" ∨ sel = "Brazil" ∨ sel = "Congo" ∨ sel = "Equatorial Guinea")
    (e : Entity) : entitySelMatches sel e = decide (entityStr e = sel) := by
  rcases hsel with rfl | rfl | rfl | rfl <;> cases e <;> decide

/-!
Claim theorems.
-/

/-- C1: For every contract produced by createMockContract and for every
contract in the MOCK_CONTRACTS collection, isHighRisk is true if and only if
detectedTriggers is non-empty. -/
theorem c1_highRisk_iff_triggers_nonempty :
    (∀ (id : String) (entity : Entity) (status : ContractStatus) (amount : Int)
        (title : String) (subDate : Int),
      ((createMockContract id entity status amount title subDate).isHighRisk = true ↔
        (createMockContract id entity status amount title subDate).detectedTriggers.length > 0)) ∧
    (∀ (now : Int) (rnd : Nat → Int) (c : ContractData), c ∈ MOCK_CONTRACTS now rnd →
      (c.isHighRisk = true ↔ c.detectedTriggers.length > 0)) := by
  constructor
  · exact createMock_highRisk_iff
  · intro now rnd c hc
    simp only [MOCK_CONTRACTS, List.mem_cons, List.not_mem_nil, or_false] at hc
    rcases hc with rfl | rfl | rfl | rfl | rfl | rfl | rfl | rfl | rfl | rfl | rfl | rfl |
      rfl | rfl | rfl | rfl | rfl | rfl | rfl | rfl | rfl | rfl
    · simp [mockContract1]
    · simp [mockContract2]
    all_goals exact createMock_highRisk_iff ..

/-- C1 witness: the first mock contract, at a concrete clock value. -/
theorem c1_witness :
    (mockContract1 0).isHighRisk = true ↔ (mockContract1 0).detectedTriggers.length > 0 :=
  c1_highRisk_iff_triggers_nonempty.2 0 (fun _ => 0) (mockContract1 0) (List.Mem.head _)

/-- C2: the evaluator fires exactly the two financial triggers and nothing
else; on amount 6000000 with type CAPEX exactly the CAPEX trigger fires and
the derived high-risk flag is true; on amount 6000000 with type OPEX only
the OPEX trigger fires; on amount 500000 with type OPEX nothing fires and
the derived high-risk flag is false. -/
theorem c2_trigger_rules :
    (∀ (contractType : String) (amount : Int) (t : RiskTrigger),
        t ∈ detectTriggers contractType amount ↔
          ((t = opexTrigger ∧ contractType = "OPEX" ∧ amount > 1000000) ∨
           (t = capexTrigger ∧ contractType = "CAPEX" ∧ amount > 5000000))) ∧
    detectTriggers "CAPEX" 6000000 = [capexTrigger] ∧
    decide ((detectTriggers "CAPEX" 6000000).length > 0) = true ∧
    detectTriggers "OPEX" 6000000 = [opexTrigger] ∧
    detectTriggers "OPEX" 500000 = [] ∧
    decide ((detectTriggers "OPEX" 500000).length > 0) = false ∧
    (∀ (id : String) (entity : Entity) (status : ContractStatus) (title : String) (subDate : Int),
        (createMockContract id entity status 6000000 title subDate).detectedTriggers = [capexTrigger] ∧
        (createMockContract id entity status 6000000 title subDate).isHighRisk = true) := by
  refine ⟨?_, by simp [detectTriggers], by simp [detectTriggers], by simp [detectTriggers],
    by simp [detectTriggers], by simp [detectTriggers], ?_⟩
  · intro contractType amount t
    unfold detectTriggers
    by_cases h1 : contractType = "OPEX" ∧ amount > 1000000 <;>
      by_cases h2 : contractType = "CAPEX" ∧ amount > 5000000
    · exact absurd (h1.1.symm.trans h2.1) (by decide)
    all_goals simp [h1, h2]
  · intro id entity status title subDate
    constructor <;> simp [createMockContract, detectTriggers]

/-- C8: for every contract produced by createMockContract, contractType is
CAPEX exactly when the amount exceeds 5000000 and OPEX otherwise. -/
theorem c8_contractType_from_amount (id : String) (entity : Entity) (status : ContractStatus)
    (amount : Int) (title : String) (subDate : Int) :
    ((createMockContract id entity status amount title subDate).contractType = "CAPEX" ↔
      amount > 5000000) ∧
    ((createMockContract id entity status amount title subDate).contractType = "OPEX" ↔
      ¬ amount > 5000000) := by
  by_cases h : amount > 5000000 <;> simp [createMockContract, h]

/-- C10: every contract produced by createMockContract has at most one
detected trigger, is high-risk exactly when the amount exceeds 1000000,
every CAPEX mock contract is high-risk, amounts in the interval
1000000 to 5000000 fire only the OPEX trigger, and amounts above 5000000
fire only the CAPEX trigger. -/
theorem c10_at_most_one_trigger (id : String) (entity : Entity) (status : ContractStatus)
    (amount : Int) (title : String) (subDate : Int) :
    (createMockContract id entity status amount title subDate).detectedTriggers.length ≤ 1 ∧
    ((createMockContract id entity status amount title subDate).isHighRisk = true ↔
      amount > 1000000) ∧
    ((createMockContract id entity status amount title subDate).contractType = "CAPEX" →
      (createMockContract id entity status amount title subDate).isHighRisk = true) ∧
    (1000000 < amount → amount ≤ 5000000 →
      (createMockContract id entity status amount title subDate).detectedTriggers = [opexTrigger]) ∧
    (5000000 < amount →
      (createMockContract id entity status amount title subDate).detectedTriggers = [capexTrigger]) := by
  by_cases h5 : amount > 5000000
  · have h1 : amount > 1000000 := by omega
    simp [createMockContract, h5, h1, detectTriggers_capex]
  · by_cases h1 : amount > 1000000 <;>
      simp [createMockContract, h5, h1, detectTriggers_opex]

/-- C10 witness: concrete amounts on each side of the two thresholds. -/
theorem c10_witness :
    (createMockContract "W" Entity.london ContractStatus.draft 6000000 "W" 0).isHighRisk = true ∧
    (createMockContract "W" Entity.london ContractStatus.draft 2000000 "W" 0).detectedTriggers =
      [opexTrigger] :=
  ⟨(c10_at_most_one_trigger "W" Entity.london ContractStatus.draft 6000000 "W" 0).2.2.1 (by decide),
   (c10_at_most_one_trigger "W" Entity.london ContractStatus.draft 2000000 "W" 0).2.2.2.1
     (by decide) (by decide)⟩

/-- C9: the AI text operations never propagate an error: with a missing key
analyzeContractRisks returns the explanatory placeholder and
refineContractText returns its input; when the external call fails,
analyzeContractRisks returns the fallback error string and
refineContractText returns its input. -/
theorem c9_ai_fallbacks :
    (∀ (contract : ContractData) (outcome : AIOutcome),
        analyzeContractRisks "" contract outcome =
          "API Key not configured. Unable to perform AI analysis.") ∧
    (∀ (apiKey : String) (contract : ContractData), apiKey ≠ "" →
        analyzeContractRisks apiKey contract .failure =
          "Error generating AI analysis. Please review manually.") ∧
    (∀ (text : String) (outcome : AIOutcome), refineContractText "" text outcome = text) ∧
    (∀ (apiKey text : String), refineContractText apiKey text .failure = text) := by
  refine ⟨fun c o => by simp [analyzeContractRisks],
    fun k c hk => by simp [analyzeContractRisks, hk],
    fun t o => by simp [refineContractText],
    fun k t => ?_⟩
  unfold refineContractText
  split <;> rfl

/-- C9 witness: a present key with a failing call. -/
theorem c9_witness :
    analyzeContractRisks "key" (mockContract1 0) .failure =
      "Error generating AI analysis. Please review manually." :=
  c9_ai_fallbacks.2.1 "key" (mockContract1 0) (by decide)

/-- C7: changing entity, status, search term, high-risk toggle, or page size
resets the current page to 1; toggling the sort order leaves it unchanged. -/
theorem c7_pagination_reset :
    (∀ (s : DashState) (v : String), v ≠ s.selectedEntity →
      (step s (.setEntity v)).currentPage = 1) ∧
    (∀ (s : DashState) (v : String), v ≠ s.selectedStatus →
      (step s (.setStatus v)).currentPage = 1) ∧
    (∀ (s : DashState) (v : String), v ≠ s.searchTerm →
      (step s (.setSearch v)).currentPage = 1) ∧
    (∀ (s : DashState) (v : Bool), v ≠ s.isHighRiskFilter →
      (step s (.setHighRisk v)).currentPage = 1) ∧
    (∀ (s : DashState) (v : Nat), v ≠ s.itemsPerPage →
      (step s (.setItemsPerPage v)).currentPage = 1) ∧
    (∀ s : DashState, (step s .toggleSort).currentPage = s.currentPage) := by
  refine ⟨?_, ?_, ?_, ?_, ?_, ?_⟩ <;>
    first
    | (intro s v h; simp [step, applyEvent, effectDeps, Prod.ext_iff, h])
    | (intro s; simp [step, applyEvent, effectDeps])

/-- C7 witness: the initial state on page 7, one filter change and one sort
toggle. -/
theorem c7_witness :
    (step { initialDashState with currentPage := 7 } (.setEntity "Brazil")).currentPage = 1 ∧
    (step { initialDashState with currentPage := 7 } .toggleSort).currentPage = 7 :=
  ⟨c7_pagination_reset.1 { initialDashState with currentPage := 7 } "Brazil" (by decide),
   c7_pagination_reset.2.2.2.2.2 { initialDashState with currentPage := 7 }⟩

/-- C5: the KPI metrics depend only on the entity filter; with ALL the
total-value metric is the sum of amounts over the whole collection; with a
single entity it is the sum restricted to that entity; the four per-entity
spend sums add up to the all-entities total; pending counts exactly the base
contracts whose status is Submitted or PendingCEO. -/
theorem c5_metrics_base :
    (∀ (s1 s2 : DashState) (contracts : List ContractData),
        s1.selectedEntity = s2.selectedEntity →
        dashMetrics s1 contracts = dashMetrics s2 contracts) ∧
    (∀ contracts : List ContractData,
        (metrics "ALL" contracts).totalValue = (contracts.map (·.amount)).sum) ∧
    (∀ (sel : String) (contracts : List ContractData),
        (sel = "London" ∨ sel = "Brazil" ∨ sel = "Congo" ∨ sel = "Equatorial Guinea") →
        (metrics sel contracts).totalValue =
          ((contracts.filter fun c => decide (entityStr c.entity = sel)).map (·.amount)).sum) ∧
    (∀ contracts : List ContractData,
        ((metrics "ALL" contracts).spendData.map (·.value)).sum =
          (metrics "ALL" contracts).totalValue) ∧
    (∀ (sel : String) (contracts : List ContractData),
        (metrics sel contracts).pending =
          ((kpiBaseContracts sel contracts).filter fun c =>
            decide (c.status = .submitted ∨ c.status = .pendingCEO)).length) := by
  refine ⟨?_, ?_, ?_, ?_, ?_⟩
  · intro s1 s2 contracts h
    simp [dashMetrics, h]
  · intro contracts
    simp [metrics, kpiBaseContracts, foldl_add_amount]
  · intro sel contracts hsel
    have hne : sel ≠ "ALL" := by rcases hsel with rfl | rfl | rfl | rfl <;> decide
    have hbase : kpiBaseContracts sel contracts =
        contracts.filter fun c => decide (entityStr c.entity = sel) := by
      rw [kpiBaseContracts, if_neg hne]
      exact List.filter_congr fun c _ => entitySelMatches_eq sel hsel c.entity
    simp [metrics, hbase, foldl_add_amount]
  · intro contracts
    have hp := spend_partition contracts
    simp [metrics, kpiBaseContracts, spendDataOf, foldl_add_amount]
    omega
  · intro sel contracts
    simp only [metrics]
    exact congrArg List.length (List.filter_congr fun c _ => by simp)

/-- C5 witness: the Brazil entity selection over the mock collection at a
concrete clock. -/
theorem c5_witness :
    (metrics "Brazil" (MOCK_CONTRACTS 0 (fun _ => 0))).totalValue =
      (((MOCK_CONTRACTS 0 (fun _ => 0)).filter fun c =>
        decide (entityStr c.entity = "Brazil")).map (·.amount)).sum :=
  c5_metrics_base.2.2.1 "Brazil" (MOCK_CONTRACTS 0 (fun _ => 0)) (Or.inr (Or.inl rfl))

/-- The number of contracts of a given status in a collection. -/
def countStatus (s : ContractStatus) (base : List ContractData) : Nat :=
  (base.filter fun c => decide (c.status = s)).length

/-- A one-contract collection whose only contract is in Draft status. -/
def c6CexBase : List ContractData :=
  [createMockContract "CNT-X" .brazil .draft 500000 "Waste Management" 0]

/-- C6 counterexample: a collection with one Draft contract has a non-zero
Draft count but its status histogram is empty, so the six-status claim fails
for Draft. -/
theorem c6_counterexample :
    countStatus .draft c6CexBase = 1 ∧ (metrics "ALL" c6CexBase).statusData = [] := by
  constructor <;> decide

/-- C6 (amended): the histogram has, for each of the four statuses Submitted,
PendingCEO, Approved and Rejected with a non-zero count over the metrics
base, exactly one bucket holding that count; it has no zero-count buckets;
and Draft and ChangesRequested never get a bucket. -/
theorem c6_statusData_nonzero_buckets (base : List ContractData) :
    (∀ d ∈ statusDataOf base, 0 < d.value) ∧
    (∀ s : ContractStatus,
        (s = .submitted ∨ s = .pendingCEO ∨ s = .approved ∨ s = .rejected) →
        0 < countStatus s base →
        (statusDataOf base).filter (fun d => decide (d.name = statusStr s)) =
          [{ name := statusStr s, value := countStatus s base }]) ∧
    (∀ d ∈ statusDataOf base,
        d.name ≠ statusStr .draft ∧ d.name ≠ statusStr .changesRequested) := by
  refine ⟨?_, ?_, ?_⟩
  · intro d hd
    have := List.of_mem_filter hd
    simpa using this
  · intro s hs h
    rcases hs with rfl | rfl | rfl | rfl <;>
      (simp only [countStatus] at h
       unfold statusDataOf
       rw [List.filter_filter]
       simp [countStatus, statusStr, h])
  · intro d hd
    have hmem := List.mem_of_mem_filter hd
    simp only [statusDataOf, List.mem_cons, List.not_mem_nil, or_false] at hmem
    rcases hmem with rfl | rfl | rfl | rfl <;>
      exact ⟨by simp [statusStr], by simp [statusStr]⟩

/-- C6 witness for the amended claim: a one-contract Submitted collection. -/
theorem c6_witness :
    (statusDataOf [mockContract2 0]).filter
        (fun d => decide (d.name = statusStr .submitted)) =
      [{ name := statusStr .submitted, value := countStatus .submitted [mockContract2 0] }] :=
  (c6_statusData_nonzero_buckets [mockContract2 0]).2.1 .submitted (Or.inl rfl) (by decide)

/-- The comparator order is transitive for both directions. -/
theorem sortLE_trans (ord : SortOrder) :
    ∀ a b c, sortLE ord a b → sortLE ord b c → sortLE ord a c := by
  intro a b c hab hbc
  cases ord <;> simp [sortLE] at hab hbc ⊢ <;> omega

/-- The comparator order is total for both directions. -/
theorem sortLE_total (ord : SortOrder) : ∀ a b, sortLE ord a b || sortLE ord b a := by
  intro a b
  cases ord <;> simp [sortLE] <;> omega

/-- The sorted list is pairwise ordered by the comparator. -/
theorem sortByDate_pairwise (ord : SortOrder) (l : List ContractData) :
    (sortByDate ord l).Pairwise (fun a b => sortLE ord a b = true) :=
  List.sorted_mergeSort (sortLE_trans ord) (sortLE_total ord) l

/-- a occurs strictly before b somewhere in l. -/
def precedes (l : List ContractData) (a b : ContractData) : Prop :=
  ∃ i j : Nat, i < j ∧ l[i]? = some a ∧ l[j]? = some b

/-- In a sorted output, two members with strictly increasing keys occur in
key order. -/
theorem precedes_of_keys (ord : SortOrder) (l : List ContractData) (a b : ContractData)
    (hmema : a ∈ sortByDate ord l) (hmemb : b ∈ sortByDate ord l)
    (hlt : sortLE ord b a = false) : precedes (sortByDate ord l) a b := by
  obtain ⟨i, hi, hia⟩ := List.mem_iff_getElem.mp hmema
  obtain ⟨j, hj, hjb⟩ := List.mem_iff_getElem.mp hmemb
  have hpw := List.pairwise_iff_getElem.mp (sortByDate_pairwise ord l)
  have hij : i < j := by
    rcases Nat.lt_trichotomy i j with h | h | h
    · exact h
    · exfalso
      subst h
      have hab : a = b := hia.symm.trans hjb
      subst hab
      have htot := sortLE_total ord a a
      rw [hlt] at htot
      simp at htot
    · exfalso
      have := hpw j i hj hi h
      rw [hia, hjb] at this
      exact absurd this (by simp [hlt])
  exact ⟨i, j, hij, List.getElem?_eq_some_iff.mpr ⟨hi, hia⟩,
    List.getElem?_eq_some_iff.mpr ⟨hj, hjb⟩⟩

/-- In a sorted output, a member never occurs before another member whose
key should come first strictly. -/
theorem not_precedes_of_keys (ord : SortOrder) (l : List ContractData) (a b : ContractData)
    (hlt : sortLE ord a b = false) : ¬ precedes (sortByDate ord l) a b := by
  rintro ⟨i, j, hij, hia, hjb⟩
  obtain ⟨hi, hia⟩ := List.getElem?_eq_some_iff.mp hia
  obtain ⟨hj, hjb⟩ := List.getElem?_eq_some_iff.mp hjb
  have := List.pairwise_iff_getElem.mp (sortByDate_pairwise ord l) i j hi hj hij
  rw [hia, hjb] at this
  exact absurd this (by simp [hlt])

/-- C4: the sorted sequence is a permutation of its input, is pairwise
ordered by submission timestamp in the selected direction, is stable
(contracts of any fixed timestamp keep their original relative order in
both directions), and two contracts with distinct timestamps appear in
opposite relative orders in the ascending and descending outputs. -/
theorem c4_sort_stable_and_reversing :
    (∀ (ord : SortOrder) (l : List ContractData), (sortByDate ord l).Perm l) ∧
    (∀ l : List ContractData,
        (sortByDate .asc l).Pairwise (fun a b => sortKey a ≤ sortKey b)) ∧
    (∀ l : List ContractData,
        (sortByDate .desc l).Pairwise (fun a b => sortKey b ≤ sortKey a)) ∧
    (∀ (ord : SortOrder) (l : List ContractData) (t : Int),
        (sortByDate ord l).filter (fun c => decide (sortKey c = t)) =
          l.filter (fun c => decide (sortKey c = t))) ∧
    (∀ (l : List ContractData) (a b : ContractData), sortKey a < sortKey b →
        (¬ precedes (sortByDate .asc l) b a) ∧
        (¬ precedes (sortByDate .desc l) a b) ∧
        (a ∈ l → b ∈ l →
          precedes (sortByDate .asc l) a b ∧ precedes (sortByDate .desc l) b a)) := by
  refine ⟨fun ord l => List.mergeSort_perm l (sortLE ord), ?_, ?_, ?_, ?_⟩
  · intro l
    exact (sortByDate_pairwise .asc l).imp fun h => by simpa [sortLE] using h
  · intro l
    exact (sortByDate_pairwise .desc l).imp fun h => by simpa [sortLE] using h
  · intro ord l t
    have hsub : List.Sublist (l.filter (fun c => decide (sortKey c = t))) l :=
      List.filter_sublist l
    have hpw : (l.filter (fun c => decide (sortKey c = t))).Pairwise
        (fun a b => sortLE ord a b = true) := by
      apply List.pairwise_of_forall_mem_list
      intro a ha b hb
      have ha' := List.of_mem_filter ha
      have hb' := List.of_mem_filter hb
      simp at ha' hb'
      cases ord <;> simp [sortLE, ha', hb']
    have hstep : List.Sublist (l.filter (fun c => decide (sortKey c = t)))
        (sortByDate ord l) :=
      List.sublist_mergeSort (sortLE_trans ord) (sortLE_total ord) hpw hsub
    have hfil : List.Sublist
        ((l.filter (fun c => decide (sortKey c = t))).filter
          (fun c => decide (sortKey c = t)))
        ((sortByDate ord l).filter (fun c => decide (sortKey c = t))) :=
      hstep.filter (fun c => decide (sortKey c = t))
    rw [List.filter_filter] at hfil
    simp only [Bool.and_self] at hfil
    have hlen : ((sortByDate ord l).filter (fun c => decide (sortKey c = t))).length =
        (l.filter (fun c => decide (sortKey c = t))).length := by
      rw [← List.countP_eq_length_filter, ← List.countP_eq_length_filter]
      exact (List.mergeSort_perm l (sortLE ord)).countP_eq _
    exact (hfil.eq_of_length hlen.symm).symm
  · intro l a b hab
    have hne : sortLE .asc b a = false := by simp [sortLE]; omega
    have hne' : sortLE .desc a b = false := by simp [sortLE]; omega
    refine ⟨not_precedes_of_keys .asc l b a hne, not_precedes_of_keys .desc l a b hne', ?_⟩
    intro hal hbl
    constructor
    · exact precedes_of_keys .asc l a b (by simpa [sortByDate] using hal)
        (by simpa [sortByDate] using hbl) hne
    · exact precedes_of_keys .desc l b a (by simpa [sortByDate] using hbl)
        (by simpa [sortByDate] using hal) hne'

/-- Sample contract with the earlier timestamp. -/
def c4SampleA : ContractData := createMockContract "A" .london .draft 0 "Alpha" 1

/-- Sample contract with the later timestamp. -/
def c4SampleB : ContractData := createMockContract "B" .london .draft 0 "Beta" 2

/-- C4 witness: two concrete contracts with distinct timestamps, fed in
reverse order. -/
theorem c4_witness :
    precedes (sortByDate .asc [c4SampleB, c4SampleA]) c4SampleA c4SampleB ∧
    precedes (sortByDate .desc [c4SampleB, c4SampleA]) c4SampleB c4SampleA :=
  (c4_sort_stable_and_reversing.2.2.2.2 [c4SampleB, c4SampleA] c4SampleA c4SampleB
      (by decide)).2.2
    (List.mem_cons_of_mem _ (List.mem_cons_self _ _))
    (List.mem_cons_self _ _)

/-- The property stated by the spec for one contract against the active
filter parameters: entity match (when not ALL), status match (concrete, or
the composite REVIEW meaning Submitted or PendingCEO), the high-risk-only
toggle, and the case-insensitive search over contractor name, id and
scope of work. -/
def passesAllFilters (s : DashState) (c : ContractData) : Prop :=
  (s.selectedEntity = "ALL" ∨ entityStr c.entity = s.selectedEntity) ∧
  (s.selectedStatus = "ALL" ∨
    (s.selectedStatus = "REVIEW" ∧ (c.status = .submitted ∨ c.status = .pendingCEO)) ∨
    (s.selectedStatus ≠ "ALL" ∧ s.selectedStatus ≠ "REVIEW" ∧
      statusStr c.status = s.selectedStatus)) ∧
  (s.isHighRiskFilter = true → c.isHighRisk = true) ∧
  (s.searchTerm ≠ "" → searchMatches s.searchTerm c = true)

instance (s : DashState) (c : ContractData) : Decidable (passesAllFilters s c) := by
  unfold passesAllFilters
  infer_instance

/-- The entity filter stage agrees with the spec clause for the five legal
selected-entity strings. -/
theorem entity_stage (sel : String)
    (hsel : sel = "ALL" ∨ sel = "London" ∨ sel = "Brazil" ∨ sel = "Congo" ∨
      sel = "Equatorial Guinea")
    (l : List ContractData) :
    (if sel ≠ "ALL" then l.filter (fun c => entitySelMatches sel c.entity) else l) =
      l.filter (fun c => decide (sel = "ALL" ∨ entityStr c.entity = sel)) := by
  by_cases h : sel = "ALL"
  · simp [h]
  · rw [if_pos h]
    apply List.filter_congr
    intro c _
    have hsel4 : sel = "London" ∨ sel = "Brazil" ∨ sel = "Congo" ∨
        sel = "Equatorial Guinea" := by tauto
    rw [entitySelMatches_eq sel hsel4]
    simp [h]

/-- The status filter stage agrees with the spec clause (no legality side
condition needed: an unmatched concrete string filters to equality with the
raw status string on both sides). -/
theorem status_stage (sel : String) (l : List ContractData) :
    (if sel = "REVIEW" then
        l.filter (fun c => decide (c.status = .submitted) || decide (c.status = .pendingCEO))
      else if sel ≠ "ALL" then l.filter (fun c => decide (statusStr c.status = sel)) else l) =
      l.filter (fun c => decide (sel = "ALL" ∨
        (sel = "REVIEW" ∧ (c.status = .submitted ∨ c.status = .pendingCEO)) ∨
        (sel ≠ "ALL" ∧ sel ≠ "REVIEW" ∧ statusStr c.status = sel))) := by
  by_cases h1 : sel = "REVIEW"
  · subst h1
    rw [if_pos rfl]
    apply List.filter_congr
    intro c _
    simp
  · rw [if_neg h1]
    by_cases h2 : sel = "ALL"
    · simp [h2]
    · rw [if_pos h2]
      apply List.filter_congr
      intro c _
      simp [h1, h2]

/-- The high-risk filter stage agrees with the spec clause. -/
theorem highrisk_stage (b : Bool) (l : List ContractData) :
    (if b then l.filter (fun c => c.isHighRisk) else l) =
      l.filter (fun c => decide (b = true → c.isHighRisk = true)) := by
  cases b <;> simp

/-- The search filter stage agrees with the spec clause. -/
theorem search_stage (q : String) (l : List ContractData) :
    (if q ≠ "" then l.filter (searchMatches q) else l) =
      l.filter (fun c => decide (q ≠ "" → searchMatches q c = true)) := by
  by_cases h : q = ""
  · simp [h]
  · rw [if_pos h]
    apply List.filter_congr
    intro c _
    simp [h]

/-- C3: for every collection and every reachable filter parameter set, the
filter pipeline keeps exactly the contracts passing all active filters, in
their original relative order; in particular entity Brazil with status ALL
and no search keeps exactly the Brazil contracts. -/
theorem c3_filter_exact :
    (∀ (s : DashState) (contracts : List ContractData),
      (s.selectedEntity = "ALL" ∨ s.selectedEntity = "London" ∨
        s.selectedEntity = "Brazil" ∨ s.selectedEntity = "Congo" ∨
        s.selectedEntity = "Equatorial Guinea") →
      filterContracts s contracts =
        contracts.filter (fun c => decide (passesAllFilters s c))) ∧
    (∀ contracts : List ContractData,
      filterContracts { initialDashState with selectedEntity := "Brazil" } contracts =
        contracts.filter (fun c => decide (c.entity = Entity.brazil))) := by
  constructor
  · intro s contracts hsel
    simp only [filterContracts]
    rw [entity_stage s.selectedEntity hsel contracts, status_stage, highrisk_stage,
      search_stage, List.filter_filter, List.filter_filter, List.filter_filter]
    apply List.filter_congr
    intro c _
    simp only [passesAllFilters, Bool.decide_and]
    simp [Bool.and_assoc, Bool.and_comm, Bool.and_left_comm]
  · intro contracts
    simp only [filterContracts]
    simp
    apply List.filter_congr
    intro c _
    cases hc : c.entity <;> simp [entitySelMatches, hc]

/-- C3 witness: the Brazil selection over the mock collection at a concrete
clock. -/
theorem c3_witness :
    filterContracts { initialDashState with selectedEntity := "Brazil" }
        (MOCK_CONTRACTS 0 (fun _ => 0)) =
      (MOCK_CONTRACTS 0 (fun _ => 0)).filter
        (fun c => decide (passesAllFilters
          { initialDashState with selectedEntity := "Brazil" } c)) :=
  c3_filter_exact.1 { initialDashState with selectedEntity := "Brazil" }
    (MOCK_CONTRACTS 0 (fun _ => 0)) (Or.inr (Or.inr (Or.inl rfl)))

end ContractGuard
